import Mathlib

/-!
Shallow embedding of `gdrivefs/gdtool/drive.py` (GDriveFS), covering the
retrying proxy (`_GoogleProxy.__getattr__.proxied_method`), the change-feed
reader (`_GdriveManager.list_changes`), the paginated listing
(`_GdriveManager.list_files`), the children listing
(`_GdriveManager.get_children_under_parent_id`), the cached download
(`_GdriveManager.download_to_local`) and the request-body construction of
`_GdriveManager.__insert_entry` / `_GdriveManager.update_entry`.

Python mutable state is passed explicitly, exceptions become `Except` (or an
explicit error component), and machine-irrelevant collaborators (the service,
the downloader, the filename escaper, the clock) become parameters.
-/

namespace GDriveFS

/-! ## The retrying proxy (`proxied_method`, drive.py lines 593-652)

The method body is modelled as a function from the attempt index to the
outcome the underlying call produces on that attempt.  The Python error
classes caught by the `except` clauses are represented structurally:

* `ssl.SSLError`, `httplib.BadStatusLine` — transient transport errors;
* `HttpError` carries `e.content`: `none` models a body that `json.loads`
  rejects, `some b` the parsed JSON object with its optional `code` field and
  optional `errors` array (each element's optional `reason` string);
* `AuthorizationFaultError`;
* anything else is `otherError`.

`unboundLocalError`, `typeError` and `indexError` are the exceptions the
handler itself can raise while inspecting the parsed body. -/

/-- The parsed JSON error body of an `HttpError`: the optional `code` field
and the optional `errors` array, each element reduced to its optional
`reason` field (the only parts `proxied_method` reads). -/
structure ErrorBody where
  code : Option Int
  reasons : Option (List (Option String))
deriving DecidableEq, Repr

/-- The Python exceptions relevant to `proxied_method`.  For `httpError`,
`body = none` models an `e.content` that is not valid JSON. -/
inductive PyErr where
  | sslError
  | badStatusLine
  | httpError (body : Option ErrorBody)
  | authFault
  | unboundLocalError
  | typeError
  | indexError
  | otherError (name : String)
deriving DecidableEq, Repr

/-- What one invocation of the wrapped method does. -/
inductive Attempt where
  | ok (v : Nat)
  | raise (e : PyErr)
deriving DecidableEq, Repr

/-- Outcome of a whole `proxied_method` call: the Python return value
(`Except.ok none` is the implicit `return None` after the loop falls
through; `Except.ok (some v)` is a normal return; `Except.error e` is an
uncaught exception), together with how many attempts were made, how many
backoff sleeps were performed and how many credential refreshes were done. -/
structure ProxyResult where
  result : Except PyErr (Option Nat)
  attempts : Nat
  sleeps : Nat
  refreshes : Nat
deriving Repr

/-- What the `HttpError` handler does once the local variable `error` holds
`errVar` (lines 619-631): retry with backoff on a recognized 403 rate-limit
reason, re-raise the original error otherwise, or itself fail while
dereferencing `error`. -/
inductive HttpStep where
  | backoff
  | reraise
  | raiseNew (e : PyErr)
deriving DecidableEq, Repr

/-- Evaluation of
`error.get('code') == 403 and error.get('errors')[0].get('reason') in [...]`
with `error` bound to `errVar` (`none` means `error` was never assigned, so
the lookup raises `UnboundLocalError`; a missing `errors` key gives
`None[0]`, a `TypeError`; an empty array gives an `IndexError`). -/
def httpStep (errVar : Option ErrorBody) : HttpStep :=
  match errVar with
  | none => .raiseNew .unboundLocalError
  | some b =>
    if b.code = some 403 then
      match b.reasons with
      | none => .raiseNew .typeError
      | some [] => .raiseNew .indexError
      | some (r :: _) =>
        if r = some "rateLimitExceeded" ∨ r = some "userRateLimitExceeded" then
          .backoff
        else
          .reraise
    else .reraise

/-- The `for n in range(0, 5)` loop of `proxied_method`, iterating the list
of remaining attempt indices.  `errVar` is the current binding of the
function-scoped local `error` (it survives across iterations; a `json.loads`
failure leaves the previous binding in place), `made` counts attempts made,
`sleeps` backoff sleeps, `refreshes` credential refreshes. -/
def proxyRun (autoRefresh : Bool) (att : Nat → Attempt) :
    List Nat → Option ErrorBody → Nat → Nat → Nat → ProxyResult
  | [], _, made, sleeps, refreshes =>
    -- loop exhausted: the Python function falls through and returns None
    ⟨.ok none, made, sleeps, refreshes⟩
  | n :: rest, errVar, made, sleeps, refreshes =>
    match att n with
    | .ok v => ⟨.ok (some v), made + 1, sleeps, refreshes⟩
    | .raise .sslError =>
      proxyRun autoRefresh att rest errVar (made + 1) (sleeps + 1) refreshes
    | .raise .badStatusLine =>
      proxyRun autoRefresh att rest errVar (made + 1) (sleeps + 1) refreshes
    | .raise (.httpError body) =>
      let errVar' := match body with
                     | some b => some b
                     | none => errVar
      match httpStep errVar' with
      | .backoff =>
        proxyRun autoRefresh att rest errVar' (made + 1) (sleeps + 1) refreshes
      | .reraise => ⟨.error (.httpError body), made + 1, sleeps, refreshes⟩
      | .raiseNew e => ⟨.error e, made + 1, sleeps, refreshes⟩
    | .raise .authFault =>
      if autoRefresh = false ∨ n = 1 then
        ⟨.error .authFault, made + 1, sleeps, refreshes⟩
      else
        proxyRun autoRefresh att rest errVar (made + 1) sleeps (refreshes + 1)
    | .raise e => ⟨.error e, made + 1, sleeps, refreshes⟩

/-- `proxied_method(auto_refresh, **kwargs)`: run the loop over attempt
indices `range(0, 5)` with the local `error` unbound. -/
def proxied_method (autoRefresh : Bool) (att : Nat → Attempt) : ProxyResult :=
  proxyRun autoRefresh att [0, 1, 2, 3, 4] none 0 0 0

/-! ## `list_changes` (drive.py lines 110-155) -/

/-- One element of `response['items']`: the integer change id, the affected
file id, the `deleted` flag and (when not deleted) the raw `file` payload
(kept opaque; `NormalEntry('list_changes', entry)` is modelled as the payload
itself). -/
structure ChangeItem where
  id : Int
  fileId : String
  deleted : Bool
  file : Option String
deriving DecidableEq, Repr

/-- A processed change record: `(entry_id, was_deleted, normalized_entry)`. -/
abbrev ChangeRecord := String × Bool × Option String

/-- Python `OrderedDict` assignment `changes[k] = v`: an existing key keeps
its position and gets the new value, a new key is appended. -/
def odInsert (k : Int) (v : ChangeRecord) :
    List (Int × ChangeRecord) → List (Int × ChangeRecord)
  | [] => [(k, v)]
  | (k', v') :: rest =>
    if k' = k then (k, v) :: rest else (k', v') :: odInsert k v rest

/-- Python's guard `last_change_id and change_id <= last_change_id`: `None`
is falsy, and an `int` is truthy iff nonzero. -/
def changeGuard (lastId : Option Int) (cid : Int) : Bool :=
  match lastId with
  | some l => l ≠ 0 && cid ≤ l
  | none => false

/-- The item loop of `list_changes`.  `lastId` is `last_change_id`
(initially `None`). -/
def listChangesLoop (lastId : Option Int) (changes : List (Int × ChangeRecord)) :
    List ChangeItem → Except String (List (Int × ChangeRecord))
  | [] => .ok changes
  | item :: rest =>
    let cid := item.id
    if changeGuard lastId cid then
      .error "Change-ID being processed is less-than the last change-ID to be processed."
    else
      let normalized := if item.deleted then none else item.file
      listChangesLoop (some cid)
        (odInsert cid (item.fileId, item.deleted, normalized) changes) rest

/-- `list_changes`: given the page-level response fields and its items,
either abort with the consistency error or return
`(largest_change_id, next_page_token, changes)`. -/
def list_changes (largestChangeId : Int) (nextPageToken : Option String)
    (items : List ChangeItem) :
    Except String (Int × Option String × List (Int × ChangeRecord)) :=
  match listChangesLoop none [] items with
  | .error m => .error m
  | .ok changes => .ok (largestChangeId, nextPageToken, changes)

/-- Whether some item of the list trips the ordering guard of
`list_changes`, starting from the given `last_change_id`. -/
def anyGuardViolation : Option Int → List ChangeItem → Bool
  | _, [] => false
  | lastId, i :: rest =>
    changeGuard lastId i.id || anyGuardViolation (some i.id) rest

/-! ## `list_files` (drive.py lines 239-311) -/

/-- A listed entry, reduced to what the claims inspect: its id and whether
any configured hidden flag is set on it. -/
structure FileEntry where
  id : String
  hidden : Bool
deriving DecidableEq, Repr

/-- One service response page: `result['items']` and the optional
`result['nextPageToken']`. -/
structure FilePage where
  items : List FileEntry
  nextPageToken : Option String
deriving DecidableEq, Repr

/-- Python truthiness of an optional string argument: `None` and `""` are
falsy. -/
def optTruthy : Option String → Bool
  | some s => s ≠ ""
  | none => false

/-- The `query_components` list built by `list_files` before the page loop
(lines 256-273): the parent filter, the title filter (`title='...'` wins
over `title contains '...'`), then one `<flag> = false` component per
configured hidden flag.  `esc` is the external `escape_filename_for_query`
collaborator. -/
def fileQueryComponents (parent_id : Option String)
    (query_is_string query_contains_string : Option String)
    (hiddenFlags : List String) (esc : String → String) : List String :=
  (if optTruthy parent_id then
    ["'" ++ parent_id.getD "" ++ "' in parents"]
   else [])
  ++ (if optTruthy query_is_string then
        ["title='" ++ esc (query_is_string.getD "") ++ "'"]
      else if optTruthy query_contains_string then
        ["title contains '" ++ esc (query_contains_string.getD "") ++ "'"]
      else [])
  ++ hiddenFlags.map (fun flag => flag ++ " = false")

/-- The page loop of `list_files` (lines 277-311): the service's page
stream for the built query is given as a list; each iteration appends the
page's items and continues only while `nextPageToken` is present. -/
def collectFilePages : List FilePage → List FileEntry
  | [] => []
  | p :: rest =>
    p.items ++ (match p.nextPageToken with
                | some _ => collectFilePages rest
                | none => [])

/-- Spec-side description (§4.3/§8 of the spec): the pages actually
consumed are the prefix through the first page lacking a continuation
token. -/
def pagesThroughFirstNoToken : List FilePage → List FilePage
  | [] => []
  | p :: rest =>
    p :: (match p.nextPageToken with
          | some _ => pagesThroughFirstNoToken rest
          | none => [])

/-! ## `get_children_under_parent_id` (drive.py lines 169-201) -/

/-- Observable side effects of the children listing: building the service
client (which on first use fetches the discovery document over the
network), and the `children().list(...)` network call itself. -/
inductive ChildEffect where
  | clientBuild
  | childrenList (query : Option String) (folderId : String)
deriving DecidableEq, Repr

/-- Errors of the children listing.  `bareRaise` models the bare `raise`
statement at line 182: executed with no exception in flight it raises a
`TypeError` in Python 2 (it does not construct a configuration error). -/
inductive ChildErr where
  | bareRaise
deriving DecidableEq, Repr

/-- `get_children_under_parent_id`: `clientBuilt` says whether
`GdriveAuth.get_client` has already memoized a client; `serviceIds` is the
id list the service would answer with.  Returns the effect trace and the
result. -/
def get_children_under_parent_id (clientBuilt : Bool) (parent_id : String)
    (query_contains_string query_is_string : Option String)
    (esc : String → String) (serviceIds : List String) :
    List ChildEffect × Except ChildErr (List String) :=
  -- client = self.__auth.get_client() happens before the exclusivity check
  let effects : List ChildEffect := if clientBuilt then [] else [.clientBuild]
  if optTruthy query_contains_string && optTruthy query_is_string then
    (effects, .error .bareRaise)
  else
    let query : Option String :=
      if optTruthy query_is_string then
        some ("title='" ++ esc (query_is_string.getD "") ++ "'")
      else if optTruthy query_contains_string then
        some ("title contains '" ++ esc (query_contains_string.getD "") ++ "'")
      else none
    (effects ++ [.childrenList query parent_id], .ok serviceIds)

/-! ## `download_to_local` (drive.py lines 313-390) -/

/-- The parts of a `NormalEntry` that `download_to_local` reads: the native
MIME type, the export map `download_links` (MIME type → URL) and
`time.mktime(modified_date.timetuple())`, the remote modification time at
second resolution. -/
structure DriveEntry where
  id : String
  mime_type : String
  download_links : List (String × String)
  modified_epoch : Nat
deriving DecidableEq, Repr

/-- The local file at `output_file_path`: its content (a byte list) and its
stat modification time. -/
structure LocalFile where
  content : List Nat
  mtime : Nat
deriving DecidableEq, Repr

/-- The chunked-download collaborator: the chunks it writes to the open
file handle, and whether it reaches `done` (on `ok = false` it raises after
having written all of `chunks`). -/
structure Downloader where
  chunks : List (List Nat)
  ok : Bool
deriving DecidableEq, Repr

/-- Errors of `download_to_local`: the `ExportFormatError` of line 331, the
`KeyError` a `download_links[mime_type]` lookup miss raises at line 375,
and a mid-transfer failure escaping the chunk loop. -/
inductive DownloadErr where
  | exportFormat
  | keyError
  | downloadFailed
deriving DecidableEq, Repr

/-- The cache decision of lines 348-360: `allow_cache and
isfile(output_file_path)` and then `gd_mtime_epoch == stat_info.st_mtime`. -/
def useCacheB (gd_mtime_epoch : Nat) (allow_cache : Bool)
    (fs : Option LocalFile) : Bool :=
  allow_cache && (match fs with
                  | some f => gd_mtime_epoch == f.mtime
                  | none => false)

/-- `download_to_local(output_file_path, normalized_entry, mime_type,
allow_cache)`.  `fs` is the state of the target path (`none` = no file),
`now` the current clock, `dl` the chunked-download collaborator.  Returns
the Python result `(size, changed)` (or the raised error) together with the
final state of the target path. -/
def download_to_local (entry : DriveEntry) (mime_type : String)
    (allow_cache : Bool) (now : Nat) (fs : Option LocalFile)
    (dl : Downloader) : Except DownloadErr (Nat × Bool) × Option LocalFile :=
  if mime_type ≠ entry.mime_type ∧
      mime_type ∉ entry.download_links.map Prod.fst then
    (.error .exportFormat, fs)
  else
    let gd_mtime_epoch := entry.modified_epoch
    if useCacheB gd_mtime_epoch allow_cache fs then
      match fs with
      | some f => (.ok (f.content.length, false), some f)
      | none => (.error .downloadFailed, fs)  -- unreachable: useCacheB needs a file
    else
      -- url = normalized_entry.download_links[mime_type]
      match entry.download_links.lookup mime_type with
      | none => (.error .keyError, fs)
      | some _ =>
        -- open(output_file_path, 'wb') truncates before any chunk request
        let opened : LocalFile := { content := [], mtime := now }
        let written : LocalFile :=
          { opened with content := opened.content ++ dl.chunks.flatten }
        if dl.ok then
          -- utime(output_file_path, (time.time(), gd_mtime_epoch))
          (.ok (dl.chunks.flatten.length, true),
           some { written with mtime := gd_mtime_epoch })
        else
          (.error .downloadFailed, some written)

/-! ## Request bodies of `__insert_entry` (lines 392-446) and
`update_entry` (lines 459-512) -/

/-- A JSON value appearing in a request body. -/
inductive BVal where
  | s (v : String)
  | parents (ids : List String)
  | labels (hidden : Bool)
  | null
deriving DecidableEq, Repr

/-- The `body` dict built by `__insert_entry`.  `modified_datetime` and
`accessed_datetime` are defaulted to `now` (the `now_phrase`) when `None`,
so their `is not None` guards always fire; `description` is placed in the
dict literal unconditionally (as JSON null when absent); `is_hidden`
defaults to `False` in the Python signature, so an unsupplied flag arrives
here as `false`. -/
def insertBody (filename mime_type : String) (parents : Option (List String))
    (modified_datetime accessed_datetime : Option String) (is_hidden : Bool)
    (description : Option String) (now : String) : List (String × BVal) :=
  let ps := parents.getD []
  let md := modified_datetime.getD now
  let ad := accessed_datetime.getD now
  [("title", .s filename),
   ("parents", .parents ps),
   ("mimeType", .s mime_type),
   ("labels", .labels is_hidden),
   ("description", match description with | some d => .s d | none => .null)]
  ++ [("modifiedDate", .s md)]
  ++ [("lastViewedByMeDate", .s ad)]

/-- The fallback `if not mime_type: mime_type = normalized_entry.mime_type`
of `update_entry` — the Python falsy check treats `None` and `""` alike. -/
def updateMimeType (entry_mime_type : String) : Option String → String
  | some m => if m = "" then entry_mime_type else m
  | none => entry_mime_type

/-- The `body` dict built by `update_entry`.  `mime_type` falls back to the
entry's current type when falsy (`None` or `""`); `title`, `parents`,
`description` and `lastViewedByMeDate` are guarded by `is not None`;
`labels` is guarded by `is_hidden is not None`, but the Python signature
defaults `is_hidden` to `False` (not `None`), so an unsupplied flag arrives
here as `some false`; `modifiedDate` is always set, to the caller's value
or to `now`. -/
def updateBody (entry_mime_type : String) (filename : Option String)
    (mime_type : Option String) (parents : Option (List String))
    (modified_datetime accessed_datetime : Option String)
    (is_hidden : Option Bool) (description : Option String) (now : String) :
    List (String × BVal) :=
  let mt := updateMimeType entry_mime_type mime_type
  [("mimeType", .s mt)]
  ++ (match filename with | some fn => [("title", .s fn)] | none => [])
  ++ (match parents with | some ps => [("parents", .parents ps)] | none => [])
  ++ (match is_hidden with | some h => [("labels", .labels h)] | none => [])
  ++ (match description with | some d => [("description", .s d)] | none => [])
  ++ [("modifiedDate", .s (modified_datetime.getD now))]
  ++ (match accessed_datetime with
      | some a => [("lastViewedByMeDate", .s a)]
      | none => [])

/-- A paginated listing fixture: 3 pages of sizes 2, 2 and 1, the first two
carrying continuation tokens, the last one not (the §8 fixture of the
spec). -/
def fixturePages : List FilePage :=
  [⟨[⟨"a", false⟩, ⟨"b", false⟩], some "t1"⟩,
   ⟨[⟨"c", false⟩, ⟨"d", false⟩], some "t2"⟩,
   ⟨[⟨"e", false⟩], none⟩]

/-!
Theorems about the embedded operations.
-/

/-- Helper: the guard of `list_changes` with a previous id `l` does not fire
exactly when `l` is zero (Python-falsy) or the new id is strictly larger. -/
theorem changeGuard_some_false (l c : Int) :
    changeGuard (some l) c = false ↔ (l = 0 ∨ l < c) := by
  simp only [changeGuard, Bool.and_eq_false_iff, decide_eq_false_iff_not,
    ne_eq, not_not, not_le]

/-- Helper: no guard violation starting after item `a` is exactly the chain
condition on `a :: items`. -/
theorem anyGuardViolation_some_iff (items : List ChangeItem) :
    ∀ a : ChangeItem,
      anyGuardViolation (some a.id) items = false ↔
        List.Chain' (fun x y : ChangeItem => x.id = 0 ∨ x.id < y.id)
          (a :: items) := by
  induction items with
  | nil =>
    intro a
    simp [anyGuardViolation]
  | cons b rest ih =>
    intro a
    rw [List.chain'_cons, ← ih b]
    simp only [anyGuardViolation, Bool.or_eq_false_iff, changeGuard_some_false]

/-- Helper: the item loop of `list_changes` succeeds exactly when no item
trips the ordering guard. -/
theorem listChangesLoop_ok_iff (items : List ChangeItem) :
    ∀ (lastId : Option Int) (acc : List (Int × ChangeRecord)),
      (∃ c, listChangesLoop lastId acc items = .ok c) ↔
        anyGuardViolation lastId items = false := by
  induction items with
  | nil =>
    intro lastId acc
    simp [listChangesLoop, anyGuardViolation]
  | cons i rest ih =>
    intro lastId acc
    by_cases h : changeGuard lastId i.id = true
    · simp [listChangesLoop, anyGuardViolation, h]
    · rw [Bool.not_eq_true] at h
      simp only [listChangesLoop, anyGuardViolation, h, Bool.false_or,
        if_neg Bool.false_ne_true]
      exact ih _ _

/-- C2 (counterexample): a synthetic change page whose two items both carry
change id 0 is non-increasing, yet `list_changes` completes normally and
returns a result — the Python guard `if last_change_id and ...` skips the
comparison because the previous id 0 is falsy.  This falsifies "whenever an
item's change id is less than or equal to the previously processed item's
change id, the whole listing aborts". -/
theorem list_changes_zero_id_not_aborted :
    list_changes 7 none
        [⟨0, "f1", true, none⟩, ⟨0, "f2", true, none⟩] =
      .ok (7, none, [(0, ("f2", true, none))]) := rfl

/-- C2 (amended): `list_changes` returns a result exactly when consecutive
items have strictly increasing change ids **or** the earlier id is 0 (the
falsy sentinel check skips the guard there); whenever a nonzero previous id
is followed by a smaller-or-equal id the whole listing aborts with the
consistency error and no partial result is returned. -/
theorem list_changes_strictly_increasing_unless_zero (largest : Int)
    (tok : Option String) (items : List ChangeItem) :
    (∃ r, list_changes largest tok items = .ok r) ↔
      List.Chain' (fun x y : ChangeItem => x.id = 0 ∨ x.id < y.id) items := by
  have h1 : (∃ r, list_changes largest tok items = .ok r) ↔
      (∃ c, listChangesLoop none [] items = .ok c) := by
    unfold list_changes
    cases h : listChangesLoop none [] items <;> simp [h]
  rw [h1, listChangesLoop_ok_iff]
  cases items with
  | nil => simp [anyGuardViolation]
  | cons a rest =>
    rw [← anyGuardViolation_some_iff rest a]
    simp [anyGuardViolation, changeGuard]

/-- C1: when every one of the five attempts raises a transient transport
error (`ssl.SSLError` or `httplib.BadStatusLine`), the proxy does perform a
backoff sleep and retry each time, bounded to 5 attempts — but after the
fifth failure the `for` loop falls through and `proxied_method` returns
`None` (`Except.ok none`): the last error is swallowed and a default value
is returned instead of propagating, contradicting the claim. -/
theorem proxied_method_transient_exhaustion_swallows :
    proxied_method true (fun _ => .raise .sslError) =
      ⟨.ok none, 5, 5, 0⟩ ∧
    proxied_method true (fun _ => .raise .badStatusLine) =
      ⟨.ok none, 5, 5, 0⟩ :=
  ⟨rfl, rfl⟩

/-- C8: an `HttpError` whose body is valid JSON but not a recognized 403
rate-limit signal is re-raised unchanged on the first attempt, and an error
of any unrelated class propagates unchanged without retry — but an
`HttpError` whose body is not JSON makes the handler dereference the
never-assigned local `error`, so an `UnboundLocalError` propagates instead
of the original `HttpError`: the error's kind is not preserved. -/
theorem proxied_method_nonjson_body_loses_kind :
    proxied_method true (fun _ => .raise (.httpError none)) =
      ⟨.error .unboundLocalError, 1, 0, 0⟩ ∧
    proxied_method true
        (fun _ => .raise (.httpError (some ⟨some 404, some [some "notFound"]⟩))) =
      ⟨.error (.httpError (some ⟨some 404, some [some "notFound"]⟩)), 1, 0, 0⟩ ∧
    proxied_method true (fun _ => .raise (.otherError "MustIgnoreFileError")) =
      ⟨.error (.otherError "MustIgnoreFileError"), 1, 0, 0⟩ :=
  ⟨rfl, rfl, rfl⟩

/-- C3 (counterexample): with auto-refresh enabled, one transient transport
failure on attempt 0 followed by authorization faults makes the *first*
`AuthorizationFaultError` of the call (raised at attempt index 1) propagate
immediately with **zero** credential refreshes — the code's `n == 1` test
confuses "attempt index 1" with "already refreshed once", falsifying "the
first AuthorizationFaultError triggers exactly one credential refresh
followed by one retry". -/
theorem proxied_method_first_auth_fault_no_refresh :
    proxied_method true
        (fun n => if n = 0 then .raise .sslError else .raise .authFault) =
      ⟨.error .authFault, 2, 1, 0⟩ := rfl

/-- C3 (amended): the proxy treats attempt index 1 as "already refreshed":
an `AuthorizationFaultError` raised at attempt index 1, or with auto-refresh
disabled, propagates unchanged; one raised at any other index triggers a
credential refresh and retry.  Hence a call whose attempts raise only
authorization faults refreshes exactly once and propagates the second
fault, and a first-attempt fault followed by success returns that success
after one refresh; but when transient failures occupy the first two
attempts, later authorization faults refresh once per fault (three times
here) and the loop then falls through returning `None`. -/
theorem proxied_method_auth_refresh_by_index (att : Nat → Attempt) (v : Nat) :
    (att 0 = .raise .authFault → att 1 = .raise .authFault →
      proxied_method true att = ⟨.error .authFault, 2, 0, 1⟩) ∧
    (att 0 = .raise .authFault → att 1 = .ok v →
      proxied_method true att = ⟨.ok (some v), 2, 0, 1⟩) ∧
    (att 0 = .raise .authFault →
      proxied_method false att = ⟨.error .authFault, 1, 0, 0⟩) ∧
    (att 0 = .raise .sslError → att 1 = .raise .sslError →
      att 2 = .raise .authFault → att 3 = .raise .authFault →
      att 4 = .raise .authFault →
      proxied_method true att = ⟨.ok none, 5, 2, 3⟩) := by
  refine ⟨?_, ?_, ?_, ?_⟩
  · intro h0 h1
    simp [proxied_method, proxyRun, h0, h1]
  · intro h0 h1
    simp [proxied_method, proxyRun, h0, h1]
  · intro h0
    simp [proxied_method, proxyRun, h0]
  · intro h0 h1 h2 h3 h4
    simp [proxied_method, proxyRun, h0, h1, h2, h3, h4]

/-- C3 (witness): a call whose attempts all raise `AuthorizationFaultError`
with auto-refresh enabled refreshes exactly once and propagates the second
fault. -/
theorem proxied_method_auth_refresh_by_index_witness :
    proxied_method true (fun _ => .raise .authFault) =
      ⟨.error .authFault, 2, 0, 1⟩ :=
  (proxied_method_auth_refresh_by_index (fun _ => .raise .authFault) 0).1
    rfl rfl

/-- Helper: the page loop of `list_files` collects exactly the items of the
pages through the first page lacking a continuation token. -/
theorem collectFilePages_eq (pages : List FilePage) :
    collectFilePages pages =
      ((pagesThroughFirstNoToken pages).map FilePage.items).flatten := by
  induction pages with
  | nil => simp [collectFilePages, pagesThroughFirstNoToken]
  | cons p rest ih =>
    cases h : p.nextPageToken <;>
      simp [collectFilePages, pagesThroughFirstNoToken, h, ih]

/-- Helper: every entry returned by the page loop of `list_files` comes from
some consumed page. -/
theorem mem_collectFilePages (pages : List FilePage) (e : FileEntry) :
    e ∈ collectFilePages pages → ∃ p ∈ pages, e ∈ p.items := by
  induction pages with
  | nil => simp [collectFilePages]
  | cons p rest ih =>
    intro he
    simp only [collectFilePages] at he
    rcases List.mem_append.1 he with he | he
    · exact ⟨p, List.mem_cons_self p rest, he⟩
    · cases h : p.nextPageToken with
      | none =>
        rw [h] at he
        exact absurd he (List.not_mem_nil e)
      | some t =>
        rw [h] at he
        obtain ⟨q, hq, hqe⟩ := ih he
        exact ⟨q, List.mem_cons_of_mem p hq, hqe⟩

/-- C5: `list_files` returns exactly the items of the service pages,
concatenated in page order, following each continuation token and stopping
after the first page without one; the query sent to the service always
contains a `<flag> = false` component for every configured hidden flag, so
when the service honors those filters (every page item is non-hidden) no
returned entry is hidden. -/
theorem list_files_pages_exact_and_hidden_filtered (pages : List FilePage)
    (parent qis qc : Option String) (flags : List String)
    (esc : String → String)
    (hserver : ∀ p ∈ pages, ∀ e ∈ p.items, e.hidden = false) :
    collectFilePages pages =
      ((pagesThroughFirstNoToken pages).map FilePage.items).flatten ∧
    (∀ flag ∈ flags,
      (flag ++ " = false") ∈ fileQueryComponents parent qis qc flags esc) ∧
    (∀ e ∈ collectFilePages pages, e.hidden = false) := by
  refine ⟨collectFilePages_eq pages, ?_, ?_⟩
  · intro flag hf
    have hm : (flag ++ " = false") ∈ flags.map (fun f => f ++ " = false") :=
      List.mem_map.2 ⟨flag, hf, rfl⟩
    simp only [fileQueryComponents, List.mem_append]
    tauto
  · intro e he
    obtain ⟨p, hp, hpe⟩ := mem_collectFilePages pages e he
    exact hserver p hp e hpe

/-- C5 (witness): the 3-page fixture of sizes 2, 2, 1 with a configured
hidden flag yields exactly its 5 entries in page order, and the hidden
filter component is part of the query. -/
theorem list_files_pages_exact_and_hidden_filtered_witness :
    collectFilePages fixturePages =
      [⟨"a", false⟩, ⟨"b", false⟩, ⟨"c", false⟩, ⟨"d", false⟩,
       ⟨"e", false⟩] ∧
    ("hidden" ++ " = false") ∈
      fileQueryComponents none none none ["hidden"] (fun s => s) := by
  constructor
  · exact (list_files_pages_exact_and_hidden_filtered fixturePages none none
      none ["hidden"] (fun s => s) (by decide)).1
  · exact (list_files_pages_exact_and_hidden_filtered fixturePages none none
      none ["hidden"] (fun s => s) (by decide)).2.1 "hidden" (by decide)

/-- C6: supplying both a non-empty `query_contains_string` and a non-empty
`query_is_string` makes the children listing fail before the
`children().list` network request — but the failure is the bare `raise` of
line 182, which with no exception in flight raises a Python 2 `TypeError`,
not a configuration error, and it fires only *after* `get_client()`, which
on first use fetches the discovery document over the network
(`clientBuild`). -/
theorem get_children_both_queries_bare_raise (built : Bool)
    (esc : String → String) (ids : List String) :
    get_children_under_parent_id built "parent" (some "a") (some "b")
        esc ids =
      ((if built then [] else [.clientBuild]), .error .bareRaise) := by
  cases built <;> rfl

/-- C7: requesting a MIME type that differs from the entry's native type
and is absent from its `download_links` mapping raises `ExportFormatError`
at once: the result does not depend on the downloader and the local file
state is untouched, so no network download is attempted. -/
theorem download_export_format_immediate (entry : DriveEntry) (mime : String)
    (allow_cache : Bool) (now : Nat) (fs : Option LocalFile) (dl : Downloader)
    (hmime : mime ≠ entry.mime_type)
    (hlinks : mime ∉ entry.download_links.map Prod.fst) :
    download_to_local entry mime allow_cache now fs dl =
      (.error .exportFormat, fs) := by
  unfold download_to_local
  rw [if_pos ⟨hmime, hlinks⟩]

/-- C7 (witness): a PDF export request against an HTML-only entry fails with
`ExportFormatError` and leaves the cached file as it was. -/
theorem download_export_format_immediate_witness :
    download_to_local ⟨"id1", "text/html", [("text/html", "u")], 100⟩
        "application/pdf" true 50 (some ⟨[1, 2], 100⟩) ⟨[[3]], true⟩ =
      (.error .exportFormat, some ⟨[1, 2], 100⟩) :=
  download_export_format_immediate _ _ _ _ _ _ (by decide) (by decide)

/-- C4: with `allow_cache = true` (and an exportable MIME type with a
download URL), the cache decision is: use the existing file iff a file
exists at the target path and its stored mtime equals the remote entry's
modification time at second resolution; on a hit the result is the existing
file's byte size with a `changed` flag of `false`, independent of the
downloader (no network) and with the file untouched; otherwise a fresh
download occurs and the file's mtime is set to the remote modification
time, not to `now`. -/
theorem download_cache_hit_iff_mtime_equal (entry : DriveEntry)
    (mime : String) (now : Nat) (fs : Option LocalFile) (dl : Downloader)
    (hguard : mime = entry.mime_type ∨
      mime ∈ entry.download_links.map Prod.fst)
    (hurl : (entry.download_links.lookup mime).isSome = true) :
    (useCacheB entry.modified_epoch true fs = true ↔
      ∃ f, fs = some f ∧ f.mtime = entry.modified_epoch) ∧
    (∀ f, fs = some f → f.mtime = entry.modified_epoch →
      download_to_local entry mime true now fs dl =
        (.ok (f.content.length, false), some f)) ∧
    (useCacheB entry.modified_epoch true fs = false → dl.ok = true →
      download_to_local entry mime true now fs dl =
        (.ok (dl.chunks.flatten.length, true),
         some ⟨dl.chunks.flatten, entry.modified_epoch⟩)) := by
  have hgneg : ¬ (mime ≠ entry.mime_type ∧
      mime ∉ entry.download_links.map Prod.fst) := by
    rcases hguard with h | h
    · exact fun hc => hc.1 h
    · exact fun hc => hc.2 h
  refine ⟨?_, ?_, ?_⟩
  · cases fs with
    | none => simp [useCacheB]
    | some f =>
      unfold useCacheB
      simp only [Bool.true_and, beq_iff_eq]
      constructor
      · intro h
        exact ⟨f, rfl, h.symm⟩
      · rintro ⟨f', hf', hmt⟩
        obtain rfl : f = f' := Option.some.inj hf'
        exact hmt.symm
  · intro f hfs hmt
    subst hfs
    unfold download_to_local
    rw [if_neg hgneg]
    have hc : useCacheB entry.modified_epoch true (some f) = true := by
      simp [useCacheB, hmt]
    rw [if_pos hc]
  · intro hnc hok
    unfold download_to_local
    rw [if_neg hgneg, if_neg (by simp [hnc])]
    obtain ⟨url, hu⟩ := Option.isSome_iff_exists.1 hurl
    rw [hu]
    simp [hok]

/-- C4 (witness): equal mtimes give a cache hit reporting the existing
3-byte file unchanged; after bumping the remote mtime, a fresh download
happens and the file's mtime becomes the remote timestamp. -/
theorem download_cache_hit_iff_mtime_equal_witness :
    download_to_local ⟨"id1", "text/plain", [("text/plain", "u")], 100⟩
        "text/plain" true 555 (some ⟨[9, 9, 9], 100⟩) ⟨[[1]], true⟩ =
      (.ok (3, false), some ⟨[9, 9, 9], 100⟩) ∧
    download_to_local ⟨"id1", "text/plain", [("text/plain", "u")], 101⟩
        "text/plain" true 555 (some ⟨[9, 9, 9], 100⟩) ⟨[[1, 2]], true⟩ =
      (.ok (2, true), some ⟨[1, 2], 101⟩) := by
  constructor
  · exact (download_cache_hit_iff_mtime_equal _ _ 555 _ _ (Or.inl rfl)
      (by decide)).2.1 ⟨[9, 9, 9], 100⟩ rfl rfl
  · exact (download_cache_hit_iff_mtime_equal _ _ 555 _ _ (Or.inl rfl)
      (by decide)).2.2 (by decide) rfl

/-- C10: whenever the cache is not used (and the export guard and URL
lookup pass), the target file is opened with `open(..., 'wb')` — truncating
it — before the first chunk is requested; if the transfer then fails
mid-way, the file ends up holding exactly the chunks downloaded so far with
mtime `now`, whatever the pre-call file state was: the previously cached
content is not preserved on error. -/
theorem download_failure_truncates_previous_content (entry : DriveEntry)
    (mime : String) (allow_cache : Bool) (now : Nat) (fs : Option LocalFile)
    (dl : Downloader)
    (hguard : mime = entry.mime_type ∨
      mime ∈ entry.download_links.map Prod.fst)
    (hurl : (entry.download_links.lookup mime).isSome = true)
    (hnc : useCacheB entry.modified_epoch allow_cache fs = false)
    (hfail : dl.ok = false) :
    download_to_local entry mime allow_cache now fs dl =
      (.error .downloadFailed, some ⟨dl.chunks.flatten, now⟩) := by
  have hgneg : ¬ (mime ≠ entry.mime_type ∧
      mime ∉ entry.download_links.map Prod.fst) := by
    rcases hguard with h | h
    · exact fun hc => hc.1 h
    · exact fun hc => hc.2 h
  unfold download_to_local
  rw [if_neg hgneg, if_neg (by simp [hnc])]
  obtain ⟨url, hu⟩ := Option.isSome_iff_exists.1 hurl
  rw [hu]
  simp [hfail]

/-- C10 (witness): a cached 2-byte file is wiped by a download that fails
after one 1-byte chunk: the file now holds just that chunk, not the old
content. -/
theorem download_failure_truncates_previous_content_witness :
    download_to_local ⟨"id1", "text/plain", [("text/plain", "u")], 100⟩
        "text/plain" true 555 (some ⟨[7, 7], 42⟩) ⟨[[1]], false⟩ =
      (.error .downloadFailed, some ⟨[1], 555⟩) :=
  download_failure_truncates_previous_content _ _ _ 555 _ _ (Or.inl rfl)
    (by decide) (by decide) rfl

/-- C9 (counterexample): an `update_entry` call supplying *no* optional
field (every Python parameter left at its default: `filename=None`,
`mime_type=None`, `parents=None`, `modified_datetime=None`,
`accessed_datetime=None`, `is_hidden=False`, `description=None`) still
sends `mimeType` and `labels` in the body; an `__insert_entry` call
supplying only the required filename/type likewise sends `labels`, a
`description` of JSON null and a `lastViewedByMeDate` — so the body does
not contain only the optional fields the caller explicitly supplied. -/
theorem update_insert_body_send_default_fields :
    updateBody "text/plain" none none none none none (some false) none
        "NOW" =
      [("mimeType", .s "text/plain"), ("labels", .labels false),
       ("modifiedDate", .s "NOW")] ∧
    insertBody "f" "text/plain" none none none false none "NOW" =
      [("title", .s "f"), ("parents", .parents []),
       ("mimeType", .s "text/plain"), ("labels", .labels false),
       ("description", .null), ("modifiedDate", .s "NOW"),
       ("lastViewedByMeDate", .s "NOW")] :=
  ⟨rfl, rfl⟩

/-- C9 (amended): both bodies always carry `modifiedDate`, equal to the
caller's value when given and to the current time otherwise; in
`update_entry`, `title`, `parents`, `description` and `lastViewedByMeDate`
are omitted when not supplied, but `mimeType` (defaulting to the entry's
current type) is always sent and `labels` is sent whenever `is_hidden` is
non-None — which includes the signature default `False`; in
`__insert_entry`, `labels`, `description` (JSON null when absent) and
`lastViewedByMeDate` (the current time when absent) are always sent. -/
theorem body_fields_presence (entry_mime : String) (fn mt : Option String)
    (ps : Option (List String)) (md ad : Option String) (ih : Option Bool)
    (ds : Option String) (now filename mime2 : String)
    (ps2 : Option (List String)) (md2 ad2 : Option String) (ih2 : Bool)
    (ds2 : Option String) :
    (("modifiedDate", BVal.s (md.getD now)) ∈
      updateBody entry_mime fn mt ps md ad ih ds now) ∧
    (("mimeType", BVal.s (updateMimeType entry_mime mt)) ∈
      updateBody entry_mime fn mt ps md ad ih ds now) ∧
    (∀ h, ih = some h → ("labels", BVal.labels h) ∈
      updateBody entry_mime fn mt ps md ad ih ds now) ∧
    (fn = none → ∀ v, ("title", v) ∉
      updateBody entry_mime fn mt ps md ad ih ds now) ∧
    (ps = none → ∀ v, ("parents", v) ∉
      updateBody entry_mime fn mt ps md ad ih ds now) ∧
    (ds = none → ∀ v, ("description", v) ∉
      updateBody entry_mime fn mt ps md ad ih ds now) ∧
    (ad = none → ∀ v, ("lastViewedByMeDate", v) ∉
      updateBody entry_mime fn mt ps md ad ih ds now) ∧
    (("modifiedDate", BVal.s (md2.getD now)) ∈
      insertBody filename mime2 ps2 md2 ad2 ih2 ds2 now) ∧
    (("labels", BVal.labels ih2) ∈
      insertBody filename mime2 ps2 md2 ad2 ih2 ds2 now) ∧
    (("description",
        (match ds2 with | some d => BVal.s d | none => BVal.null)) ∈
      insertBody filename mime2 ps2 md2 ad2 ih2 ds2 now) ∧
    (("lastViewedByMeDate", BVal.s (ad2.getD now)) ∈
      insertBody filename mime2 ps2 md2 ad2 ih2 ds2 now) := by
  refine ⟨?_, ?_, ?_, ?_, ?_, ?_, ?_, ?_, ?_, ?_, ?_⟩
  · unfold updateBody
    cases fn <;> cases ps <;> cases ih <;> cases ds <;> cases ad <;> simp
  · unfold updateBody
    cases fn <;> cases ps <;> cases ih <;> cases ds <;> cases ad <;> simp
  · rintro h rfl
    unfold updateBody
    cases fn <;> cases ps <;> cases ds <;> cases ad <;> simp
  · rintro rfl v
    unfold updateBody
    cases ps <;> cases ih <;> cases ds <;> cases ad <;> simp
  · rintro rfl v
    unfold updateBody
    cases fn <;> cases ih <;> cases ds <;> cases ad <;> simp
  · rintro rfl v
    unfold updateBody
    cases fn <;> cases ps <;> cases ih <;> cases ad <;> simp
  · rintro rfl v
    unfold updateBody
    cases fn <;> cases ps <;> cases ih <;> cases ds <;> simp
  · unfold insertBody
    cases ds2 <;> simp
  · unfold insertBody
    cases ds2 <;> simp
  · unfold insertBody
    cases ds2 <;> simp
  · unfold insertBody
    cases ds2 <;> simp

/-- C9 (witness): the signature-default `is_hidden = False` of
`update_entry` puts `("labels", hidden=false)` in the body even though the
caller supplied nothing. -/
theorem body_fields_presence_witness :
    ("labels", BVal.labels false) ∈
      updateBody "m" none none none none none (some false) none "N" :=
  (body_fields_presence "m" none none none none none (some false) none "N"
      "f" "m2" none none none false none).2.2.1 false rfl

end GDriveFS
